import Mathlib

/-!
Verification development for the WrenAI query-job core.

Two groups of definitions:

1. The SQL-generation pipeline (`src/wren-ai-service/src/pipelines/generation/
   sql_generation.py`) is embedded directly from the source: the Jinja user
   prompt template is embedded as a string-producing function whose
   conditional sections mirror the template's control blocks, and the
   pipeline steps `prompt`, `generate_sql`, `post_process` are embedded as
   pure functions (Python dicts become association lists, `dict.get` becomes
   an `Option`-returning lookup, `datetime.now()` becomes an explicit
   oracle argument).

2. The Query Job Manager (Job State Machine, Job Registry, Diversity
   Controller) is present in the repository excerpt only through its tests
   (`tests/pytest/test_main.py`, `tests/locustfile.py`); the service code
   itself is not in the excerpt.  Those components are therefore modelled
   from the spec, following its transition rule, registry contract and
   diversity-loop algorithm word by word; each such definition carries a
   `Modelled from the spec` doc comment.
-/

/-- Modelled from the spec: the job stages of the Job State Machine
(`understanding → searching → generating → {finished | failed | stopped}`);
the service code owning this state machine is not in the excerpt. -/
inductive Stage where
  | understanding
  | searching
  | generating
  | finished
  | failed
  | stopped
deriving DecidableEq

/-- Modelled from the spec: `finished`, `failed`, `stopped` are the terminal
stages. -/
def Stage.isTerminal : Stage → Bool
  | Stage.finished => true
  | Stage.failed => true
  | Stage.stopped => true
  | _ => false

/-- Modelled from the spec: the polling order
`understanding < searching < generating < terminal`. -/
def Stage.order : Stage → Nat
  | Stage.understanding => 0
  | Stage.searching => 1
  | Stage.generating => 2
  | _ => 3

/-- Modelled from the spec: a job's `result` is either an ordered sequence of
SQL candidates or an error diagnostic. -/
inductive JobResult where
  | candidates (cs : List String)
  | diagnostic (msg : String)
deriving DecidableEq

/-- Modelled from the spec: the Job data model (stage, cancellation flag,
nullable result, attempt count, excluded statements).  `createdAt` /
`finishedAt` timestamps are wall-clock concerns of the external collaborators
and are not part of any claim, so they are omitted. -/
structure Job where
  stage : Stage
  cancelRequested : Bool
  result : Option JobResult
  attemptCount : Nat
  excludedStatements : List String
deriving DecidableEq

/-- Modelled from the spec: outcome of one opaque collaborator stage
(`understanding` / `searching`): success, or a fatal collaborator error. -/
inductive CollabOutcome where
  | ok
  | fatal (diag : String)
deriving DecidableEq

/-- Modelled from the spec: the Diversity Controller's returned value —
accumulated candidates, whether the attempt budget was exhausted without
reaching the target, the number of generator attempts performed, and the
statements tried (the run's exclusion set). -/
structure DCOut where
  candidates : List String
  exhausted : Bool
  attempts : Nat
  tried : List String
deriving DecidableEq

/-- Modelled from the spec: outcome of the `generating` stage — either the
Diversity Controller's result or a propagated fatal collaborator error. -/
inductive GenOutcome where
  | result (r : DCOut)
  | fatal (diag : String)
deriving DecidableEq

/-- Modelled from the spec: what the environment does around one stage of a
job's execution: whether an external caller sets `cancelRequested` before the
machine's next stage-boundary check, and the collaborator outcomes consumed
by whichever stage runs next. -/
structure EnvInput where
  setCancel : Bool
  collab : CollabOutcome
  gen : GenOutcome

/-- Modelled from the spec: `requestCancel` sets `cancelRequested := true`
and touches nothing else (it does not itself change stage). -/
def requestCancel (j : Job) : Job :=
  { j with cancelRequested := true }

/-- Modelled from the spec: one stage transition of the Job State Machine.
Before entering every stage the cancellation flag is checked: if set, the job
transitions immediately to `stopped` and, per the spec's transition rule,
`result` stays empty on `stopped` unless a terminal result was already
committed.  A fatal collaborator error transitions to `failed` with the
diagnostic as `result`.  The `generating` stage consumes the Diversity
Controller outcome: zero valid candidates maps to `failed` with a
diagnostic, one or more candidates maps to `finished` with the candidate
sequence as `result`.  Terminal stages are absorbing. -/
def machineStep (inp : EnvInput) (j : Job) : Job :=
  if j.stage.isTerminal then j
  else if j.cancelRequested then { j with stage := Stage.stopped }
  else
    match j.stage with
    | Stage.understanding =>
      match inp.collab with
      | CollabOutcome.ok => { j with stage := Stage.searching }
      | CollabOutcome.fatal d =>
        { j with stage := Stage.failed, result := some (JobResult.diagnostic d) }
    | Stage.searching =>
      match inp.collab with
      | CollabOutcome.ok => { j with stage := Stage.generating }
      | CollabOutcome.fatal d =>
        { j with stage := Stage.failed, result := some (JobResult.diagnostic d) }
    | Stage.generating =>
      match inp.gen with
      | GenOutcome.fatal d =>
        { j with stage := Stage.failed, result := some (JobResult.diagnostic d) }
      | GenOutcome.result r =>
        if r.candidates.isEmpty then
          { j with stage := Stage.failed,
                   result := some (JobResult.diagnostic
                     ("DiversityExhausted after " ++ toString r.attempts ++ " attempts")),
                   attemptCount := j.attemptCount + r.attempts,
                   excludedStatements := j.excludedStatements ++ r.tried }
        else
          { j with stage := Stage.finished,
                   result := some (JobResult.candidates r.candidates),
                   attemptCount := j.attemptCount + r.attempts,
                   excludedStatements := j.excludedStatements ++ r.tried }
    | Stage.finished => j
    | Stage.failed => j
    | Stage.stopped => j

/-- Modelled from the spec: one observable step of the whole system — the
environment may first set the cancellation flag (the only field external
callers may write), then the owning execution performs its next
stage-boundary check and transition. -/
def sysStep (inp : EnvInput) (j : Job) : Job :=
  machineStep inp (if inp.setCancel then requestCancel j else j)

/-- Run the job from state `j` through a list of environment inputs. -/
def runFrom (j : Job) (inputs : List EnvInput) : Job :=
  List.foldl (fun a i => sysStep i a) j inputs

/-- Modelled from the spec: a job is created at submission in stage
`understanding`, with no result, no cancellation request, no attempts and an
empty exclusion set. -/
def initialJob : Job :=
  { stage := Stage.understanding, cancelRequested := false, result := none,
    attemptCount := 0, excludedStatements := [] }

/-- The job state after running the given environment inputs from submission. -/
def jobAfter (inputs : List EnvInput) : Job :=
  runFrom initialJob inputs

/-- Executable check that a list of naturals is non-decreasing. -/
def nondecreasing : List Nat → Bool
  | [] => true
  | [_] => true
  | a :: b :: t => decide (a ≤ b) && nondecreasing (b :: t)

/-- The sequence of stage ranks a poller observes along a run. -/
def stageTrace (j : Job) (inputs : List EnvInput) : List Nat :=
  (List.scanl (fun a i => sysStep i a) j inputs).map (fun x => x.stage.order)

theorem requestCancel_stage (j : Job) : (requestCancel j).stage = j.stage := rfl

theorem machineStep_terminal (inp : EnvInput) (j : Job)
    (h : j.stage.isTerminal = true) : machineStep inp j = j := by
  simp [machineStep, h]

theorem sysStep_terminal_stage (inp : EnvInput) (j : Job)
    (h : j.stage.isTerminal = true) : (sysStep inp j).stage = j.stage := by
  unfold sysStep
  by_cases hc : inp.setCancel
  · rw [if_pos hc, machineStep_terminal _ _ (by rw [requestCancel_stage]; exact h),
      requestCancel_stage]
  · rw [if_neg hc, machineStep_terminal _ _ h]

theorem runFrom_terminal_stage (inputs : List EnvInput) (j : Job)
    (h : j.stage.isTerminal = true) : (runFrom j inputs).stage = j.stage := by
  induction inputs generalizing j with
  | nil => rfl
  | cons i t ih =>
    have hs := sysStep_terminal_stage i j h
    show (runFrom (sysStep i j) t).stage = j.stage
    rw [ih (sysStep i j) (by rw [hs]; exact h), hs]

theorem machineStep_order_succ (inp : EnvInput) (j : Job)
    (h : j.stage.isTerminal = false) :
    j.stage.order + 1 ≤ (machineStep inp j).stage.order := by
  obtain ⟨st, cr, res, ac, ex⟩ := j
  cases st
  case understanding =>
    cases cr
    · cases hco : inp.collab <;>
        simp [machineStep, Stage.isTerminal, Stage.order, hco]
    · simp [machineStep, Stage.isTerminal, Stage.order]
  case searching =>
    cases cr
    · cases hco : inp.collab <;>
        simp [machineStep, Stage.isTerminal, Stage.order, hco]
    · simp [machineStep, Stage.isTerminal, Stage.order]
  case generating =>
    cases cr
    · cases hg : inp.gen
      · simp only [machineStep, Stage.isTerminal, Bool.false_eq_true, if_false, hg]
        split <;> simp [Stage.order]
      · simp [machineStep, Stage.isTerminal, Stage.order, hg]
    · simp [machineStep, Stage.isTerminal, Stage.order]
  case finished => simp [Stage.isTerminal] at h
  case failed => simp [Stage.isTerminal] at h
  case stopped => simp [Stage.isTerminal] at h

theorem sysStep_order_succ (inp : EnvInput) (j : Job)
    (h : j.stage.isTerminal = false) :
    j.stage.order + 1 ≤ (sysStep inp j).stage.order := by
  unfold sysStep
  by_cases hc : inp.setCancel
  · rw [if_pos hc]
    have := machineStep_order_succ inp (requestCancel j)
      (by rw [requestCancel_stage]; exact h)
    rw [requestCancel_stage] at this
    exact this
  · rw [if_neg hc]
    exact machineStep_order_succ inp j h

theorem sysStep_order_le (inp : EnvInput) (j : Job) :
    j.stage.order ≤ (sysStep inp j).stage.order := by
  by_cases ht : j.stage.isTerminal = true
  · rw [sysStep_terminal_stage inp j ht]
  · have := sysStep_order_succ inp j (by simpa using ht)
    omega

theorem stageTrace_cons (j : Job) (i : EnvInput) (t : List EnvInput) :
    stageTrace j (i :: t) = j.stage.order :: stageTrace (sysStep i j) t := by
  simp [stageTrace, List.scanl]

theorem stageTrace_nondecreasing (inputs : List EnvInput) (j : Job) :
    nondecreasing (stageTrace j inputs) = true := by
  induction inputs generalizing j with
  | nil => rfl
  | cons i t ih =>
    rw [stageTrace_cons]
    cases t with
    | nil =>
      simp [stageTrace, List.scanl, nondecreasing, sysStep_order_le i j]
    | cons i2 t2 =>
      rw [stageTrace_cons]
      have hrest := ih (sysStep i j)
      rw [stageTrace_cons] at hrest
      simp only [nondecreasing, Bool.and_eq_true, decide_eq_true_eq]
      exact ⟨sysStep_order_le i j, hrest⟩

theorem order_ge_terminal (s : Stage) (h : 3 ≤ s.order) : s.isTerminal = true := by
  cases s <;> simp_all [Stage.order, Stage.isTerminal]

theorem runFrom_reaches_terminal (inputs : List EnvInput) (j : Job)
    (h : 3 ≤ j.stage.order + inputs.length) :
    (runFrom j inputs).stage.isTerminal = true := by
  induction inputs generalizing j with
  | nil =>
    simp only [List.length_nil, Nat.add_zero] at h
    exact order_ge_terminal _ h
  | cons i t ih =>
    by_cases ht : j.stage.isTerminal = true
    · rw [runFrom_terminal_stage _ _ ht]; exact ht
    · have hord := sysStep_order_succ i j (by simpa using ht)
      have h3 : 3 ≤ (sysStep i j).stage.order + t.length := by
        simp only [List.length_cons] at h
        omega
      exact ih (sysStep i j) h3

theorem requestCancel_idem (j : Job) :
    requestCancel (requestCancel j) = requestCancel j := rfl

theorem machineStep_cancelled (inp : EnvInput) (j : Job)
    (hc : j.cancelRequested = true) (h : j.stage.isTerminal = false) :
    (machineStep inp j).stage = Stage.stopped := by
  simp [machineStep, h, hc]

/-- The job's invariant relating `result` to the stage actually holding a
committed outcome: `result` is populated exactly on `finished` and `failed`
(on `stopped` the spec's transition rule keeps `result` empty). -/
def resultInv (j : Job) : Prop :=
  j.result.isSome = true ↔ (j.stage = Stage.finished ∨ j.stage = Stage.failed)

theorem machineStep_resultInv (inp : EnvInput) (j : Job) (h : resultInv j) :
    resultInv (machineStep inp j) := by
  obtain ⟨st, cr, res, ac, ex⟩ := j
  unfold resultInv at h ⊢
  cases st
  case understanding =>
    cases cr
    · cases hco : inp.collab <;> simp_all [machineStep, Stage.isTerminal]
    · simp_all [machineStep, Stage.isTerminal]
  case searching =>
    cases cr
    · cases hco : inp.collab <;> simp_all [machineStep, Stage.isTerminal]
    · simp_all [machineStep, Stage.isTerminal]
  case generating =>
    cases cr
    · cases hg : inp.gen
      · simp only [machineStep, Stage.isTerminal, Bool.false_eq_true, if_false, hg]
        split <;> simp_all
      · simp_all [machineStep, Stage.isTerminal]
    · simp_all [machineStep, Stage.isTerminal]
  case finished => simp_all [machineStep, Stage.isTerminal]
  case failed => simp_all [machineStep, Stage.isTerminal]
  case stopped => simp_all [machineStep, Stage.isTerminal]

theorem requestCancel_resultInv (j : Job) (h : resultInv j) :
    resultInv (requestCancel j) := h

theorem sysStep_resultInv (inp : EnvInput) (j : Job) (h : resultInv j) :
    resultInv (sysStep inp j) := by
  unfold sysStep
  by_cases hc : inp.setCancel
  · rw [if_pos hc]
    exact machineStep_resultInv inp _ (requestCancel_resultInv j h)
  · rw [if_neg hc]
    exact machineStep_resultInv inp j h

theorem runFrom_resultInv (inputs : List EnvInput) (j : Job) (h : resultInv j) :
    resultInv (runFrom j inputs) := by
  induction inputs generalizing j with
  | nil => exact h
  | cons i t ih => exact ih (sysStep i j) (sysStep_resultInv i j h)

/-- A well-behaved run: each opaque stage succeeds, the Diversity Controller
produces one candidate, nobody cancels. -/
def okIn : EnvInput :=
  ⟨false, CollabOutcome.ok, GenOutcome.result ⟨["SELECT 1"], false, 1, ["SELECT 1"]⟩⟩

/-- An environment step in which an external caller requests cancellation
before the machine's next stage-boundary check. -/
def cancelIn : EnvInput :=
  ⟨true, CollabOutcome.ok, GenOutcome.result ⟨[], true, 0, []⟩⟩

/-- C1: over any environment behaviour, the sequence of stage ranks a poller
observes along a job's run is non-decreasing in the order
`understanding < searching < generating < terminal`; once the environment
has driven at least three steps the job's stage is terminal, and from any
terminal point the stage never changes again, so exactly one terminal state
out of `finished`, `failed`, `stopped` is reached. -/
theorem c1_stage_monotone_unique_terminal (inputs more : List EnvInput) :
    nondecreasing (stageTrace initialJob inputs) = true ∧
    (3 ≤ inputs.length →
      (jobAfter inputs).stage.isTerminal = true ∧
      (runFrom (jobAfter inputs) more).stage = (jobAfter inputs).stage) := by
  refine ⟨stageTrace_nondecreasing inputs initialJob, fun h => ?_⟩
  have hterm : (jobAfter inputs).stage.isTerminal = true :=
    runFrom_reaches_terminal inputs initialJob
      (by simpa [initialJob, Stage.order] using h)
  exact ⟨hterm, runFrom_terminal_stage more _ hterm⟩

/-- Witness for C1 at a concrete three-step successful run. -/
theorem c1_stage_monotone_unique_terminal_witness :
    3 ≤ ([okIn, okIn, okIn] : List EnvInput).length ∧
    nondecreasing (stageTrace initialJob [okIn, okIn, okIn]) = true ∧
    (jobAfter [okIn, okIn, okIn]).stage.isTerminal = true ∧
    (runFrom (jobAfter [okIn, okIn, okIn]) [okIn]).stage
      = (jobAfter [okIn, okIn, okIn]).stage :=
  ⟨by decide, (c1_stage_monotone_unique_terminal [okIn, okIn, okIn] [okIn]).1,
    ((c1_stage_monotone_unique_terminal [okIn, okIn, okIn] [okIn]).2 (by decide)).1,
    ((c1_stage_monotone_unique_terminal [okIn, okIn, okIn] [okIn]).2 (by decide)).2⟩

/-- C2 counterexample: a job cancelled during `understanding` reaches the
terminal stage `stopped` with `result` still null, so "`result` is non-null
if and only if `stage` is terminal" fails on the spec's own transition rule
("`result` stays empty on `stopped`"). -/
theorem c2_result_iff_terminal_counterexample :
    (jobAfter [cancelIn]).stage = Stage.stopped ∧
    (jobAfter [cancelIn]).result = none ∧
    ¬((jobAfter [cancelIn]).result.isSome = true
        ↔ (jobAfter [cancelIn]).stage.isTerminal = true) := by
  decide

/-- C2 (amended): at every observable point of every run, `result` is
non-null if and only if the stage is `finished` or `failed`; a job stopped
by cancellation before a terminal commit carries a null `result`. -/
theorem c2_amended_result_iff_finished_or_failed (inputs : List EnvInput) :
    (jobAfter inputs).result.isSome = true ↔
      ((jobAfter inputs).stage = Stage.finished
        ∨ (jobAfter inputs).stage = Stage.failed) :=
  runFrom_resultInv inputs initialJob (by simp [resultInv, initialJob])

/-- C3: if cancellation is requested on a job that is not yet terminal, then
the very next stage-boundary check transitions it to `stopped`, and from
then on it never transitions to `finished` or `failed` (the stage stays
`stopped` under every further environment behaviour). -/
theorem c3_cancel_reaches_stopped (j : Job) (i : EnvInput) (more : List EnvInput)
    (h : j.stage.isTerminal = false) :
    (sysStep i (requestCancel j)).stage = Stage.stopped ∧
    (runFrom (sysStep i (requestCancel j)) more).stage = Stage.stopped := by
  have h1 : (sysStep i (requestCancel j)).stage = Stage.stopped := by
    unfold sysStep
    by_cases hc : i.setCancel
    · rw [if_pos hc, requestCancel_idem]
      exact machineStep_cancelled i (requestCancel j) rfl h
    · rw [if_neg hc]
      exact machineStep_cancelled i (requestCancel j) rfl h
  refine ⟨h1, ?_⟩
  rw [runFrom_terminal_stage more _ (by rw [h1]; rfl), h1]

/-- Witness for C3: cancelling the freshly submitted job stops it. -/
theorem c3_cancel_reaches_stopped_witness :
    initialJob.stage.isTerminal = false ∧
    (sysStep okIn (requestCancel initialJob)).stage = Stage.stopped ∧
    (runFrom (sysStep okIn (requestCancel initialJob)) [okIn]).stage
      = Stage.stopped :=
  ⟨by decide, (c3_cancel_reaches_stopped initialJob okIn [okIn] (by decide)).1,
    (c3_cancel_reaches_stopped initialJob okIn [okIn] (by decide)).2⟩

/-- Modelled from the spec: the registry's answer to `requestCancel(jobId)`. -/
inductive CancelAck where
  | ack
  | notFound
deriving DecidableEq

/-- Set the cancellation flag on a registry entry when its key matches. -/
def cancelEntry (id : String) (p : String × Job) : String × Job :=
  if p.fst == id then (p.fst, requestCancel p.snd) else p

/-- Modelled from the spec: the Job Registry's `requestCancel(jobId)`
operation — if the id is registered it sets `cancelRequested := true` on
that entry (and changes nothing else, in particular not the stage) and
acknowledges; otherwise it reports `NotFound`.  The registry is an
association list from job id to Job. -/
def registryCancel (r : List (String × Job)) (id : String) :
    List (String × Job) × CancelAck :=
  if r.any (fun p => p.fst == id) then (r.map (cancelEntry id), CancelAck.ack)
  else (r, CancelAck.notFound)

theorem cancelEntry_fst (id : String) (p : String × Job) :
    (cancelEntry id p).fst = p.fst := by
  unfold cancelEntry
  split <;> rfl

theorem cancelEntry_stage (id : String) (p : String × Job) :
    (cancelEntry id p).snd.stage = p.snd.stage := by
  unfold cancelEntry
  split <;> rfl

theorem cancelEntry_idem (id : String) (p : String × Job) :
    cancelEntry id (cancelEntry id p) = cancelEntry id p := by
  unfold cancelEntry
  by_cases h : p.fst == id
  · simp [h, requestCancel_idem]
  · simp [h]

theorem any_map_cancelEntry (r : List (String × Job)) (id : String) :
    (r.map (cancelEntry id)).any (fun p => p.fst == id)
      = r.any (fun p => p.fst == id) := by
  induction r with
  | nil => rfl
  | cons p t ih => simp [List.any_cons, cancelEntry_fst, ih]

theorem map_cancelEntry_idem (r : List (String × Job)) (id : String) :
    (r.map (cancelEntry id)).map (cancelEntry id) = r.map (cancelEntry id) := by
  induction r with
  | nil => rfl
  | cons p t ih => simp [cancelEntry_idem, ih]

theorem map_cancelEntry_stages (r : List (String × Job)) (id : String) :
    (r.map (cancelEntry id)).map (fun p => (p.fst, p.snd.stage))
      = r.map (fun p => (p.fst, p.snd.stage)) := by
  induction r with
  | nil => rfl
  | cons p t ih => simp [cancelEntry_fst, cancelEntry_stage, ih]

/-- C8: `requestCancel` on the registry is idempotent — issuing it a second
time returns exactly the same registry state and the same acknowledgement as
the first call — and the call itself never changes any job's stage (so in
particular it performs no duplicate terminal transition). -/
theorem c8_registry_cancel_idempotent (r : List (String × Job)) (id : String) :
    registryCancel (registryCancel r id).fst id = registryCancel r id ∧
    (registryCancel r id).fst.map (fun p => (p.fst, p.snd.stage))
      = r.map (fun p => (p.fst, p.snd.stage)) := by
  constructor
  · unfold registryCancel
    by_cases h : r.any (fun p => p.fst == id) = true
    · rw [if_pos h]
      simp only [any_map_cancelEntry, h, if_true, map_cancelEntry_idem]
    · rw [if_neg h, if_neg h]
  · unfold registryCancel
    by_cases h : r.any (fun p => p.fst == id) = true
    · rw [if_pos h]
      exact map_cancelEntry_stages r id
    · rw [if_neg h]

/-- Modelled from the spec: the Diversity Controller's loop.  `gen i excl` is
the Generator invoked at attempt `i` with the current exclusion set,
`validate` the Validator's verdict, `cancelled i` whether cancellation is
observed between attempts, `target` = N.  The loop runs while fuel (the
remaining attempt budget) lasts and fewer than `target` candidates are
accepted: it checks cancellation between attempts (returning early with
`exhausted = false`), invokes the generator, adds the statement to the
exclusion set immediately (even if invalid), validates, and appends the
statement to the candidates unless it duplicates an already accepted one.
`attempts` counts generator invocations. -/
def dcGo (gen : Nat → List String → String) (validate : String → Bool)
    (cancelled : Nat → Bool) (target : Nat) :
    Nat → Nat → List String → List String → DCOut
  | 0, i, cands, excl => ⟨cands, decide (cands.length < target), i, excl⟩
  | fuel + 1, i, cands, excl =>
    if target ≤ cands.length then ⟨cands, false, i, excl⟩
    else if cancelled i then ⟨cands, false, i, excl⟩
    else
      let s := gen i excl
      let excl2 := if excl.contains s then excl else excl ++ [s]
      let cands2 := if validate s && !(cands.contains s) then cands ++ [s] else cands
      dcGo gen validate cancelled target fuel (i + 1) cands2 excl2

/-- Modelled from the spec: `run(question, context, N, M)` of the Diversity
Controller — the question and context live inside `gen`'s closure; `target`
is N and `budget` is M. -/
def dcRun (gen : Nat → List String → String) (validate : String → Bool)
    (cancelled : Nat → Bool) (target budget : Nat) : DCOut :=
  dcGo gen validate cancelled target budget 0 [] []

/-- A Generator stub returning the statements S1, S1, S2, S3, S4 in sequence. -/
def genSeq : Nat → List String → String :=
  fun i _ => List.getD ["S1", "S1", "S2", "S3", "S4"] i ""

/-- C4: with N = 3, M = 5, a Generator producing S1, S1, S2, S3, S4 in
sequence and a Validator accepting everything, the Diversity Controller
returns the ordered candidates [S1, S2, S3] after exactly 4 generator
attempts, the repeated S1 being rejected as a duplicate of an accepted
candidate instead of appended. -/
theorem c4_diversity_dedup_example :
    dcRun genSeq (fun _ => true) (fun _ => false) 3 5
      = ⟨["S1", "S2", "S3"], false, 4, ["S1", "S2", "S3"]⟩ ∧
    (dcRun genSeq (fun _ => true) (fun _ => false) 3 5).candidates.count "S1" = 1 := by
  decide

/-- A Generator stub whose statements X, Y are all rejected by the Validator. -/
def genBad : Nat → List String → String :=
  fun i _ => List.getD ["X", "Y"] i ""

/-- A job sitting in the `generating` stage. -/
def generatingJob : Job :=
  { stage := Stage.generating, cancelRequested := false, result := none,
    attemptCount := 0, excludedStatements := [] }

/-- C5: with N = 2, M = 2 and a Generator whose statements are all invalid,
the Diversity Controller exhausts its budget with zero candidates and
`exhausted = true`, and the Job State Machine maps that outcome to the
terminal stage `failed` with a diagnostic in `result` — not to `finished`. -/
theorem c5_exhausted_maps_to_failed :
    dcRun genBad (fun _ => false) (fun _ => false) 2 2
      = ⟨[], true, 2, ["X", "Y"]⟩ ∧
    (machineStep ⟨false, CollabOutcome.ok,
        GenOutcome.result (dcRun genBad (fun _ => false) (fun _ => false) 2 2)⟩
      generatingJob).stage = Stage.failed ∧
    (machineStep ⟨false, CollabOutcome.ok,
        GenOutcome.result (dcRun genBad (fun _ => false) (fun _ => false) 2 2)⟩
      generatingJob).result
      = some (JobResult.diagnostic "DiversityExhausted after 2 attempts") ∧
    (machineStep ⟨false, CollabOutcome.ok,
        GenOutcome.result (dcRun genBad (fun _ => false) (fun _ => false) 2 2)⟩
      generatingJob).stage ≠ Stage.finished := by
  decide

/-- An entry of the `exclude` list passed to the prompt: a dict carrying the
excluded SQL statement (the template reads `doc.statement`). -/
structure ExcludeEntry where
  statement : String
deriving DecidableEq

/-- An entry of the `samples` list: a question together with its SQL. -/
structure SampleEntry where
  question : String
  sql : String
deriving DecidableEq

/-- An entry of the `previous_queries` list: the prior candidate's SQL and
its summary (the template reads `query.sql` and `query.summary`). -/
structure PrevQuery where
  sql : String
  summary : String
deriving DecidableEq

/-- Concatenation of the renderings of a list's entries, as a Jinja `for`
block produces. -/
def concatMap {α : Type} (f : α → String) : List α → String
  | [] => ""
  | x :: t => f x ++ concatMap f t

/-- The fixed text of `sql_generation_user_prompt_template` up to and
including the `### DATABASE SCHEMA ###` heading. -/
def taskHeader : String :=
  "\n### TASK ###\nGiven user\x27s question, please answer one SQL statement that best answers user\x27s question.\n\n### DATABASE SCHEMA ###\n"

/-- The schema block: one indented line per document. -/
def schemaSection (documents : List String) : String :=
  concatMap (fun d => "    " ++ d ++ "\n") documents

/-- The heading of the template's excluded-statements block (the source's
spelling `STATEMETS` is preserved). -/
def excludedHeader : String := "### EXCLUDED STATEMETS ###\n"

/-- The template's instruction not to use the excluded statements. -/
def exclusionInstruction : String :=
  "Ensure that the following excluded statements are not used in the generated queries to maintain variety and avoid repetition.\n"

/-- One excluded statement as rendered inside the block. -/
def excludeItem (d : ExcludeEntry) : String := "    " ++ d.statement ++ "\n"

/-- The `{% if exclude %} ... {% endif %}` block: empty when `exclude` is
empty (Jinja truthiness), otherwise heading, instruction and one line per
excluded statement. -/
def excludeSection (exclude : List ExcludeEntry) : String :=
  if exclude.isEmpty then ""
  else "\n" ++ excludedHeader ++ exclusionInstruction ++ concatMap excludeItem exclude

/-- The interpolated `{{ alert }}` line. -/
def alertSection (alert : String) : String := "\n" ++ alert ++ "\n"

/-- The `{% if instructions %}` block; `none` models a falsy
`construct_instructions` result. -/
def instructionsSection : Option String → String
  | some s => s ++ "\n"
  | none => ""

/-- The fixed `### FINAL ANSWER FORMAT ###` block with its JSON skeleton. -/
def answerFormatSection : String :=
  "\n### FINAL ANSWER FORMAT ###\nThe final answer must be the JSON format like following:\n\n\x7b\n    \"sql\": <SQL_QUERY_STRING>\n\x7d\n"

/-- One sample as rendered inside the `### SAMPLES ###` block. -/
def sampleItem (s : SampleEntry) : String :=
  "Question:\n" ++ s.question ++ "\nSQL:\n" ++ s.sql ++ "\n"

/-- The `{% if samples %}` block. -/
def samplesSection (samples : List SampleEntry) : String :=
  if samples.isEmpty then "" else "\n### SAMPLES ###\n" ++ concatMap sampleItem samples

/-- The heading of the previous-queries block. -/
def previousQueriesHeader : String := "### Previous Queries ###\n"

/-- One previous query as rendered inside the block. -/
def previousQueryItem (q : PrevQuery) : String :=
  "SQL Query:\n" ++ q.sql ++ "\nSQL Summary:\n" ++ q.summary ++ "\n"

/-- The `{% if previous_queries %}` block: empty when the list is empty
(Jinja treats both `None` and `[]` as falsy), otherwise heading plus the
SQL/summary pair of every previous query. -/
def previousQueriesSection (previousQueries : List PrevQuery) : String :=
  if previousQueries.isEmpty then ""
  else "\n" ++ previousQueriesHeader ++ concatMap previousQueryItem previousQueries

/-- The `### QUESTION ###` heading and question label. -/
def questionHeader : String := "\n### QUESTION ###\nUser\x27s Question: "

/-- The label in front of the interpolated `{{ current_time }}`. -/
def currentTimeLabel : String := "\nCurrent Time: "

/-- The template's closing lines.  Note they sit outside every `{% if %}`
block: the different-angle instruction is rendered unconditionally. -/
def finalInstruction : String :=
  "\nIf previous queries are given, you need to give one different SQL statement that can also answer user\x27s question in different angles.\nLet\x27s think step by step.\n"

/-- Everything of the rendered template before the `### QUESTION ###`
section, in the template's order. -/
def preQuestion (documents : List String) (exclude : List ExcludeEntry)
    (alert : String) (instructions : Option String) (samples : List SampleEntry)
    (previousQueries : List PrevQuery) : String :=
  taskHeader ++ schemaSection documents ++ excludeSection exclude
    ++ alertSection alert ++ instructionsSection instructions
    ++ answerFormatSection ++ samplesSection samples
    ++ previousQueriesSection previousQueries

/-- The full rendering of `sql_generation_user_prompt_template` on the given
variables; `currentTime` is the interpolated `{{ current_time }}` value. -/
def renderUserPrompt (query : String) (documents : List String)
    (exclude : List ExcludeEntry) (alert : String) (instructions : Option String)
    (samples : List SampleEntry) (previousQueries : List PrevQuery)
    (currentTime : String) : String :=
  preQuestion documents exclude alert instructions samples previousQueries
    ++ (questionHeader ++ query ++ currentTimeLabel ++ currentTime ++ "\n")
    ++ finalInstruction

/-- The pipeline step `prompt` of `sql_generation.py`: it feeds `query`,
`documents`, `exclude`, `alert`, the constructed `instructions`, `samples`,
`previous_queries` and `current_time = datetime.now()` to the prompt builder
and returns the dict `{"prompt": <rendered template>}`.  The wall-clock
reading is modelled as the explicit argument `currentTime`, and
`construct_instructions(configurations)` (defined outside the excerpt) as
the `instructions` argument. -/
def prompt (query : String) (documents : List String) (exclude : List ExcludeEntry)
    (alert : String) (instructions : Option String) (samples : List SampleEntry)
    (previousQueries : List PrevQuery) (currentTime : String) :
    List (String × String) :=
  [("prompt", renderUserPrompt query documents exclude alert instructions samples
      previousQueries currentTime)]

/-- Python's `dict.get(key)`: `None` (here `none`) when the key is absent,
never an exception. -/
def pyGet {α : Type} (d : List (String × α)) (k : String) : Option α :=
  match d.find? (fun p => p.fst == k) with
  | some p => some p.snd
  | none => none

/-- The pipeline step `generate_sql` of `sql_generation.py`: it reads
`prompt.get("prompt")` and hands the value to the generator; `Except` is the
embedding of Python exceptions — the body can raise none. -/
def generate_sql {γ : Type} (promptDict : List (String × String))
    (generator : Option String → γ) : Except String γ :=
  Except.ok (generator (pyGet promptDict "prompt"))

/-- The pipeline step `post_process` of `sql_generation.py`: it reads
`generate_sql.get("replies")` and hands the value to the post-processor. -/
def post_process {γ : Type} (generateSql : List (String × List String))
    (postProcessor : Option (List String) → γ) : Except String γ :=
  Except.ok (postProcessor (pyGet generateSql "replies"))

theorem concatMap_mem_split {α : Type} (f : α → String) (l : List α) (e : α)
    (he : e ∈ l) : ∃ a b, concatMap f l = a ++ f e ++ b := by
  induction l with
  | nil => cases he
  | cons x t ih =>
    rcases List.mem_cons.mp he with h | h
    · subst h
      refine ⟨"", concatMap f t, ?_⟩
      simp [concatMap]
    · obtain ⟨a, b, hab⟩ := ih h
      refine ⟨f x ++ a, b, ?_⟩
      rw [concatMap, hab]
      simp [String.append_assoc]

/-- C6: the generator's rendered prompt always carries the exclusion block
for the excluded-statements set it was invoked with (and the pipeline's
`prompt` dict hands exactly that rendering to `generate_sql`); the block is
empty exactly for an empty excluded set, and for a non-empty set it contains
the instruction not to use the excluded statements together with one entry
per excluded statement. -/
theorem c6_prompt_exclusion_section (query : String) (documents : List String)
    (exclude : List ExcludeEntry) (alert : String) (instructions : Option String)
    (samples : List SampleEntry) (previousQueries : List PrevQuery)
    (currentTime : String) :
    pyGet (prompt query documents exclude alert instructions samples
        previousQueries currentTime) "prompt"
      = some (renderUserPrompt query documents exclude alert instructions samples
          previousQueries currentTime) ∧
    (∃ pre post, renderUserPrompt query documents exclude alert instructions
        samples previousQueries currentTime
      = pre ++ excludeSection exclude ++ post) ∧
    (exclude = [] → excludeSection exclude = "") ∧
    (exclude ≠ [] →
      ∃ a b, excludeSection exclude = a ++ exclusionInstruction ++ b) ∧
    (∀ e ∈ exclude, ∃ a b, excludeSection exclude = a ++ excludeItem e ++ b) := by
  refine ⟨rfl, ?_, ?_, ?_, ?_⟩
  · refine ⟨taskHeader ++ schemaSection documents,
      alertSection alert ++ instructionsSection instructions
        ++ answerFormatSection ++ samplesSection samples
        ++ previousQueriesSection previousQueries
        ++ (questionHeader ++ query ++ currentTimeLabel ++ currentTime ++ "\n")
        ++ finalInstruction, ?_⟩
    simp [renderUserPrompt, preQuestion, String.append_assoc]
  · intro h
    simp [excludeSection, h]
  · intro h
    have hne : exclude.isEmpty = false := by
      cases exclude
      · exact absurd rfl h
      · rfl
    refine ⟨"\n" ++ excludedHeader, concatMap excludeItem exclude, ?_⟩
    simp [excludeSection, hne, String.append_assoc]
  · intro e he
    have hne : exclude.isEmpty = false := by
      cases exclude
      · cases he
      · rfl
    obtain ⟨a, b, hab⟩ := concatMap_mem_split excludeItem exclude e he
    refine ⟨"\n" ++ excludedHeader ++ exclusionInstruction ++ a, b, ?_⟩
    simp [excludeSection, hne, hab, String.append_assoc]

/-- Witness for C6 at a concrete non-empty excluded set. -/
theorem c6_prompt_exclusion_section_witness :
    (([⟨"SELECT 2"⟩] : List ExcludeEntry) ≠ []) ∧
    (⟨"SELECT 2"⟩ : ExcludeEntry) ∈ ([⟨"SELECT 2"⟩] : List ExcludeEntry) ∧
    (∃ a b, excludeSection [⟨"SELECT 2"⟩] = a ++ exclusionInstruction ++ b) ∧
    (∃ a b, excludeSection [⟨"SELECT 2"⟩] = a ++ excludeItem ⟨"SELECT 2"⟩ ++ b) ∧
    (∃ pre post, renderUserPrompt "q" ["doc"] [⟨"SELECT 2"⟩] "alert" none [] [] "t0"
      = pre ++ excludeSection [⟨"SELECT 2"⟩] ++ post) :=
  ⟨by decide, by decide,
    (c6_prompt_exclusion_section "q" ["doc"] [⟨"SELECT 2"⟩] "alert" none [] []
        "t0").2.2.2.1 (by decide),
    (c6_prompt_exclusion_section "q" ["doc"] [⟨"SELECT 2"⟩] "alert" none [] []
        "t0").2.2.2.2 ⟨"SELECT 2"⟩ (by decide),
    (c6_prompt_exclusion_section "q" ["doc"] [⟨"SELECT 2"⟩] "alert" none [] []
        "t0").2.1⟩

/-- C7 counterexample: with an empty `previous_queries` list the rendered
prompt still ends with `finalInstruction` — the template's different-angle
instruction ("If previous queries are given, you need to give one different
SQL statement that can also answer user's question in different angles.")
sits outside every conditional block, so it is present even though no prior
candidate exists, contradicting the claim that the prompt then carries no
different-angle instruction. -/
theorem c7_previous_queries_counterexample :
    previousQueriesSection [] = "" ∧
    renderUserPrompt "q" [] [] "alert" none [] [] "t0"
      = preQuestion [] [] "alert" none [] []
          ++ (questionHeader ++ "q" ++ currentTimeLabel ++ "t0" ++ "\n")
          ++ finalInstruction :=
  ⟨rfl, rfl⟩

/-- C7 (amended): the rendered prompt lists the prior candidates (each with
its SQL and summary) exactly when at least one exists — the block is empty
for an empty `previous_queries` list — but the different-angle instruction
sentence is rendered unconditionally, in every prompt; only its natural-
language phrasing ("If previous queries are given ...") conditions it on
prior candidates. -/
theorem c7_previous_queries_amended (query : String) (documents : List String)
    (exclude : List ExcludeEntry) (alert : String) (instructions : Option String)
    (samples : List SampleEntry) (previousQueries : List PrevQuery)
    (currentTime : String) :
    (∃ pre post, renderUserPrompt query documents exclude alert instructions
        samples previousQueries currentTime
      = pre ++ previousQueriesSection previousQueries ++ post) ∧
    (previousQueries = [] → previousQueriesSection previousQueries = "") ∧
    (∀ q ∈ previousQueries,
      ∃ a b, previousQueriesSection previousQueries
        = a ++ previousQueryItem q ++ b) ∧
    (∃ pre, renderUserPrompt query documents exclude alert instructions samples
        previousQueries currentTime = pre ++ finalInstruction) := by
  refine ⟨?_, ?_, ?_, ?_⟩
  · refine ⟨taskHeader ++ schemaSection documents ++ excludeSection exclude
        ++ alertSection alert ++ instructionsSection instructions
        ++ answerFormatSection ++ samplesSection samples,
      (questionHeader ++ query ++ currentTimeLabel ++ currentTime ++ "\n")
        ++ finalInstruction, ?_⟩
    simp [renderUserPrompt, preQuestion, String.append_assoc]
  · intro h
    simp [previousQueriesSection, h]
  · intro q hq
    have hne : previousQueries.isEmpty = false := by
      cases previousQueries
      · cases hq
      · rfl
    obtain ⟨a, b, hab⟩ := concatMap_mem_split previousQueryItem previousQueries q hq
    refine ⟨"\n" ++ previousQueriesHeader ++ a, b, ?_⟩
    simp [previousQueriesSection, hne, hab, String.append_assoc]
  · exact ⟨preQuestion documents exclude alert instructions samples previousQueries
      ++ (questionHeader ++ query ++ currentTimeLabel ++ currentTime ++ "\n"), rfl⟩

/-- Witness for C7 at a concrete one-element `previous_queries` list. -/
theorem c7_previous_queries_amended_witness :
    (⟨"SELECT 3", "a count"⟩ : PrevQuery) ∈ ([⟨"SELECT 3", "a count"⟩] : List PrevQuery) ∧
    (∃ a b, previousQueriesSection [⟨"SELECT 3", "a count"⟩]
      = a ++ previousQueryItem ⟨"SELECT 3", "a count"⟩ ++ b) ∧
    (∃ pre, renderUserPrompt "q" [] [] "alert" none [] [⟨"SELECT 3", "a count"⟩] "t0"
      = pre ++ finalInstruction) :=
  ⟨by decide,
    (c7_previous_queries_amended "q" [] [] "alert" none [] [⟨"SELECT 3", "a count"⟩]
        "t0").2.2.1 ⟨"SELECT 3", "a count"⟩ (by decide),
    (c7_previous_queries_amended "q" [] [] "alert" none [] [⟨"SELECT 3", "a count"⟩]
        "t0").2.2.2⟩

/-- C9: the pipeline steps `generate_sql` and `post_process` are total with
respect to missing dict keys — they read their inputs with `.get`, so on a
dict lacking the expected key they raise nothing and pass `none` (Python
`None`) downstream to the generator / post-processor. -/
theorem c9_missing_keys_pass_none (γ : Type) (p : List (String × String))
    (g : Option String → γ) (q : List (String × List String))
    (pp : Option (List String) → γ)
    (hp : pyGet p "prompt" = none) (hq : pyGet q "replies" = none) :
    generate_sql p g = Except.ok (g none) ∧
    post_process q pp = Except.ok (pp none) := by
  constructor
  · simp [generate_sql, hp]
  · simp [post_process, hq]

/-- Witness for C9 on concrete dicts lacking the expected keys. -/
theorem c9_missing_keys_pass_none_witness :
    pyGet ([("other", "x")] : List (String × String)) "prompt" = none ∧
    pyGet ([] : List (String × List String)) "replies" = none ∧
    generate_sql [("other", "x")] (fun _ => true) = Except.ok true ∧
    post_process ([] : List (String × List String)) (fun _ => true)
      = Except.ok true :=
  ⟨by decide, rfl,
    (c9_missing_keys_pass_none Bool [("other", "x")] (fun _ => true) []
        (fun _ => true) (by decide) rfl).1,
    (c9_missing_keys_pass_none Bool [("other", "x")] (fun _ => true) []
        (fun _ => true) (by decide) rfl).2⟩

theorem renderUserPrompt_shape (query : String) (documents : List String)
    (exclude : List ExcludeEntry) (alert : String) (instructions : Option String)
    (samples : List SampleEntry) (previousQueries : List PrevQuery)
    (t : String) :
    renderUserPrompt query documents exclude alert instructions samples
        previousQueries t
      = (preQuestion documents exclude alert instructions samples previousQueries
          ++ (questionHeader ++ query ++ currentTimeLabel)) ++ t
          ++ ("\n" ++ finalInstruction) := by
  simp [renderUserPrompt, String.append_assoc]

theorem str_mid_cancel (p s t1 t2 : String) (h : p ++ t1 ++ s = p ++ t2 ++ s) :
    t1 = t2 := by
  have hd := congrArg String.data h
  simp only [String.data_append] at hd
  exact String.ext (List.append_cancel_left (List.append_cancel_right hd))

/-- C10: the pipeline step `prompt` is not a deterministic function of its
explicit inputs — every rendered prompt embeds the wall-clock reading
(`current_time = datetime.now()` interpolated into the template), so two
calls with identical query, documents, exclude, alert, instructions,
samples and previous queries made at different times produce different
prompt dicts. -/
theorem c10_prompt_time_dependent (query : String) (documents : List String)
    (exclude : List ExcludeEntry) (alert : String) (instructions : Option String)
    (samples : List SampleEntry) (previousQueries : List PrevQuery)
    (t1 t2 : String) (h : t1 ≠ t2) :
    prompt query documents exclude alert instructions samples previousQueries t1
      ≠ prompt query documents exclude alert instructions samples
          previousQueries t2 := by
  intro he
  apply h
  have hr : renderUserPrompt query documents exclude alert instructions samples
      previousQueries t1
    = renderUserPrompt query documents exclude alert instructions samples
        previousQueries t2 := by
    simpa [prompt] using he
  rw [renderUserPrompt_shape, renderUserPrompt_shape] at hr
  exact str_mid_cancel _ _ _ _ hr

/-- Witness for C10 at two concrete distinct time readings. -/
theorem c10_prompt_time_dependent_witness :
    ("2024-07-01 10:00:00" : String) ≠ "2024-07-01 10:00:01" ∧
    prompt "q" ["doc"] [] "alert" none [] [] "2024-07-01 10:00:00"
      ≠ prompt "q" ["doc"] [] "alert" none [] [] "2024-07-01 10:00:01" :=
  ⟨by decide,
    c10_prompt_time_dependent "q" ["doc"] [] "alert" none [] [] _ _ (by decide)⟩
